import Mathlib

/-!
# Verification of the CrawlDataCamera field-resolution & geospatial core

Shallow embedding of the algorithmic core of the repository:

* the record-store merge logic of `save_results_multi.py` (`main`, lines
  243-266), `save_results.py` (`crawl_and_save_results`, lines 347-371) and
  `crawler_with_coords.py` (`main`, lines 320-344);
* the persist guards of `save_results_multi.py` (line 236),
  `save_results.py` (lines 337-340) and `run_crawler.py` (lines 157-161);
* the country/city location resolvers of `save_results_multi.py`
  (`infer_country` / `infer_city`) and `crawler_with_coords.py`
  (`_infer_country_and_city`);
* the store-key sanitization `(country or 'Unknown').strip().replace(' ', '_')`;
* the render-necessity classifier `WebcamCrawler.should_use_selenium`
  (`crawler.py`, lines 652-677);
* the Web Mercator tile geometry `tile_to_lat_lon`, `lat_lon_to_tile`,
  `global_pixel_to_lat_lon` (`save_results.py`, lines 954-1007) and the
  tile/marker stage of `extract_openstreetmap_coordinates`
  (`save_results.py`, lines 707-789).

Python strings that can be absent are modelled as `Option String`
(`none` = the dict has no such key, mapped to Python `None` by `.get`);
Python floats are modelled as real numbers.
-/

namespace CrawlData

/-! ## Python string helpers -/

/-- Truthiness of a Python `str`-or-`None` value: `None` and `""` are falsy. -/
def truthy : Option String → Bool
  | none => false
  | some s => !(s == "")

/-- `a or dflt` for a Python `str`-or-`None` value `a` and string default. -/
def pyOrStr (a : Option String) (dflt : String) : String :=
  match a with
  | none => dflt
  | some s => if s = "" then dflt else s

/-- Python `str.strip()` on a character list: drop whitespace at both ends. -/
def stripChars (l : List Char) : List Char :=
  ((l.dropWhile Char.isWhitespace).reverse.dropWhile Char.isWhitespace).reverse

/-- Python `str.strip()`. -/
def pyStrip (s : String) : String := String.mk (stripChars s.data)

/-- Python `s.replace(' ', '_')`: replace every space character by `'_'`. -/
def replaceSpace (s : String) : String :=
  String.mk (s.data.map fun c => if c = ' ' then '_' else c)

/-- Python `s.replace('-', ' ')`. -/
def replaceHyphen (s : String) : String :=
  String.mk (s.data.map fun c => if c = '-' then ' ' else c)

/-- One step of Python `str.title()`: the boolean records whether the previous
character was alphabetic (cased). -/
def pyTitleChars : Bool → List Char → List Char
  | _, [] => []
  | prevAlpha, c :: cs =>
      (if prevAlpha then c.toLower else c.toUpper) :: pyTitleChars c.isAlpha cs

/-- Python `str.title()`: capitalize the first letter of every word. -/
def pyTitle (s : String) : String := String.mk (pyTitleChars false s.data)

/-- Python `s.count('/')`: number of occurrences of a character. -/
def countChar (s : String) (c : Char) : Nat := s.data.count c

/-- Python `s.strip('/')`: drop `'/'` characters at both ends. -/
def stripSlashes (s : String) : String :=
  String.mk (((s.data.dropWhile (· = '/')).reverse.dropWhile (· = '/')).reverse)

/-- Python `s.rstrip('/')`: drop `'/'` characters at the right end. -/
def rstripSlash (s : String) : String :=
  String.mk ((s.data.reverse.dropWhile (· = '/')).reverse)

/-- Characters after the first `"://"` of a URL, when present. -/
def afterScheme : List Char → Option (List Char)
  | ':' :: '/' :: '/' :: rest => some rest
  | _ :: rest => afterScheme rest
  | [] => none

/-- The path component of `urllib.parse.urlparse`: for an absolute URL,
everything from the first `'/'` after the `scheme://host` part; for a
relative reference, the string itself; query (`?`) and fragment (`#`)
parts are removed. -/
def urlPath (s : String) : String :=
  let raw :=
    match afterScheme s.data with
    | some rest => rest.dropWhile (· ≠ '/')
    | none => s.data
  String.mk (raw.takeWhile fun c => c ≠ '?' ∧ c ≠ '#')

/-- Python `str.split(sep)` for a single separator character:
`''.split('/') = ['']` and a trailing separator yields a final `''`. -/
def splitChar (sep : Char) : List Char → List (List Char)
  | [] => [[]]
  | c :: cs =>
      match splitChar sep cs with
      | [] => if c = sep then [[], []] else [[c]]
      | w :: ws => if c = sep then [] :: w :: ws else (c :: w) :: ws

/-- `urlparse(href).path.strip('/').split('/')` as used by the location
resolvers: path segments of a URL. -/
def pathSegs (s : String) : List String :=
  (splitChar '/' (stripSlashes (urlPath s)).data).map String.mk

/-! ## Record items and the record store -/

/-- The fields of a record that the merge logic inspects.  A `none` field
models a JSON object without that key (Python `.get` returns `None`). -/
structure Item where
  embedUrl : Option String
  contentUrl : Option String
  title : Option String
deriving DecidableEq, Repr

/-- `data.get('embedUrl') or data.get('contentUrl')` as a truth value. -/
def Item.hasUrl (it : Item) : Bool := truthy it.embedUrl || truthy it.contentUrl

/-- The dedup key `(item.get('embedUrl'), item.get('title'))`. -/
def Item.dedupKey (it : Item) : Option String × Option String :=
  (it.embedUrl, it.title)

/-- An element of a stored JSON array: a JSON object (modelled by its
relevant fields) or any non-object value (`isinstance(item, dict)` fails). -/
inductive JEntry
  | obj (it : Item)
  | nonobj
deriving DecidableEq, Repr

/-- The parsed state of an existing store file before a merge:
no file, unreadable JSON (`existing = None`), a JSON array, a non-empty
JSON object, or anything else (empty object, string, number, ...). -/
inductive FileState
  | absent
  | corrupt
  | jlist (items : List JEntry)
  | jdict (it : Item)
  | otherJson
deriving DecidableEq, Repr

/-- What a merge writes back: a single JSON object or a JSON array. -/
inductive StoredOut
  | single (it : Item)
  | many (items : List JEntry)
deriving DecidableEq, Repr

/-- The JSON-array content of what was written. -/
def listOf : StoredOut → List JEntry
  | .single it => [.obj it]
  | .many l => l

/-- Re-reading a written store file yields a list or a (non-empty) dict. -/
def reload : StoredOut → FileState
  | .single it => .jdict it
  | .many l => .jlist l

/-- The pruning pass of `save_results_multi.py` line 252 (and
`save_results.py` line 358): keep only array elements that are JSON objects
with `embedUrl` or `contentUrl` non-empty. -/
def pruneMulti (l : List JEntry) : List Item :=
  l.filterMap fun e =>
    match e with
    | .obj it => if it.hasUrl then some it else none
    | .nonobj => none

/-- The merge of `save_results_multi.py` `main` (lines 243-266); the merge in
`save_results.py` `crawl_and_save_results` (lines 347-371) is the same
algorithm.  List branch: prune entries without URLs, then append the new
record only if its `(embedUrl, title)` key is absent from the survivors and
it has a URL.  Dict branch: coerce the legacy single object to a list
(dropping it if it has no URL) and append the new record unless it matches
the legacy object's key.  Unreadable or other-shaped data becomes
`[data]`; with no existing file the record is written as a single object. -/
def mergeStoreMulti : FileState → Item → StoredOut
  | .absent, d => .single d
  | .corrupt, d => .many [.obj d]
  | .otherJson, d => .many [.obj d]
  | .jdict e, d =>
      let base := if e.hasUrl then [e] else []
      let out :=
        if d.hasUrl && !(e.embedUrl == d.embedUrl && e.title == d.title) then
          base ++ [d]
        else base
      .many (out.map .obj)
  | .jlist l, d =>
      let kept := pruneMulti l
      let out :=
        if !(kept.any fun it => it.dedupKey == d.dedupKey) && d.hasUrl then
          kept ++ [d]
        else kept
      .many (out.map .obj)

/-- The merge of `crawler_with_coords.py` `main` (lines 320-344).  Its list
branch computes the dedup keys over ALL existing dict entries and appends
the new record when its key is absent, but does not prune existing entries
without URLs; the dict branch and the other branches match
`mergeStoreMulti`. -/
def mergeStoreCoords : FileState → Item → StoredOut
  | .absent, d => .single d
  | .corrupt, d => .many [.obj d]
  | .otherJson, d => .many [.obj d]
  | .jdict e, d =>
      let base := if e.hasUrl then [e] else []
      let out :=
        if d.hasUrl && !(e.embedUrl == d.embedUrl && e.title == d.title) then
          base ++ [d]
        else base
      .many (out.map .obj)
  | .jlist l, d =>
      let keys := l.filterMap fun e =>
        match e with
        | .obj it => some it.dedupKey
        | .nonobj => none
      let out :=
        if !(keys.contains d.dedupKey) && d.hasUrl then l ++ [.obj d] else l
      .many out

/-- Per-URL persistence step of `save_results_multi.py` `main` (lines
236-266): records without `embedUrl` and `contentUrl` are skipped (line
236), others are merged into the per-country file. -/
def stepMulti (fs : FileState) (d : Item) : Option StoredOut :=
  if d.hasUrl then some (mergeStoreMulti fs d) else none

/-- Persistence step of `save_results.py` `crawl_and_save_results` (lines
337-379): the guard at lines 337-340 returns before saving when the record
has neither URL. -/
def stepSaveResults (fs : FileState) (d : Item) : Option StoredOut :=
  if d.hasUrl then some (mergeStoreMulti fs d) else none

/-- Persistence step of `run_crawler.py` `main` minimal flow (lines
157-161): the record is written to `{safe_country}.json` unconditionally,
overwriting any existing file; there is no URL guard and no merge. -/
def stepRunCrawler (country : Option String) (d : Item) : String × StoredOut :=
  (pyStrip (pyOrStr country "Unknown") |> replaceSpace |> (· ++ ".json"), .single d)

/-- Count of entries with a given dedup key. -/
def countKey (l : List Item) (k : Option String × Option String) : Nat :=
  l.countP fun it => it.dedupKey == k

/-- The store-file key of `save_results_multi.py` line 240 and
`run_crawler.py` line 157 (and, with a `_Location` suffix,
`crawler_with_coords.py` lines 317-319):
`(data.get('country') or 'Unknown').strip().replace(' ', '_')`. -/
def safe_country (c : Option String) : String :=
  replaceSpace (pyStrip (pyOrStr c "Unknown"))

/-! ## Location resolvers -/

/-- A breadcrumb anchor as collected by the crawlers: visible text, the
`href` attribute and the `title` attribute (absent attributes are collected
as `''`). -/
structure Crumb where
  text : String
  url : String
  title : String
deriving DecidableEq, Repr

/-- The per-anchor country rule of `save_results_multi.py` `infer_country`
(lines 35-47): the anchor matches when its href starts with `/countries/`
and contains exactly two `'/'` characters; the value is the stripped title
attribute or, when that is empty, the title-cased second path slug (when
the path has at least two segments; otherwise the anchor yields nothing
and the loop continues). -/
def crumbCountryMulti (c : Crumb) : Option String :=
  let titleAttr := pyStrip c.title
  if "/countries/".data.isPrefixOf c.url.data && countChar c.url '/' == 2 then
    if titleAttr ≠ "" then some titleAttr
    else
      let parts := pathSegs c.url
      if parts.length ≥ 2 then
        some (pyTitle (replaceHyphen (parts.getD 1 "")))
      else none
  else none

/-- URL fallback of `infer_country` (lines 51-57): a page URL whose path is
`/countries/<slug>/...` yields the title-cased slug. -/
def urlCountryFallback (url : String) : String :=
  let parts := pathSegs url
  if parts.length ≥ 2 && parts.getD 0 "" == "countries" then
    pyTitle (replaceHyphen (parts.getD 1 ""))
  else ""

/-- `save_results_multi.py` `infer_country` (lines 33-58): first matching
breadcrumb anchor over all trails wins, else the URL fallback, else `''`. -/
def infer_country (url : String) (breadcrumbs : List (List Crumb)) : String :=
  match (breadcrumbs.flatten.filterMap crumbCountryMulti).head? with
  | some s => s
  | none => urlCountryFallback url

/-- The per-anchor city rule of `save_results_multi.py` `infer_city` (lines
64-75): the anchor matches when its href starts with `/countries/`,
contains at least three `'/'` characters, and its right-slash-stripped form
is not `/countries`; the value is the accent-stripped (here: unchanged, the
inputs considered are ASCII) stripped title attribute or, when that is
empty, the title-cased third path slug. -/
def crumbCityMulti (c : Crumb) : Option String :=
  let titleAttr := pyStrip c.title
  if "/countries/".data.isPrefixOf c.url.data && countChar c.url '/' ≥ 3 &&
      !(rstripSlash c.url == "/countries") then
    if titleAttr ≠ "" then some titleAttr
    else
      let parts := pathSegs c.url
      if parts.length ≥ 3 then
        some (pyTitle (replaceHyphen (parts.getD 2 "")))
      else none
  else none

/-- URL fallback of `infer_city` (lines 79-85). -/
def urlCityFallback (url : String) : String :=
  let parts := pathSegs url
  if parts.length ≥ 3 && parts.getD 0 "" == "countries" then
    pyTitle (replaceHyphen (parts.getD 2 ""))
  else ""

/-- `save_results_multi.py` `infer_city` (lines 61-86); the `result_title`
parameter is accepted and ignored, as in the source. -/
def infer_city (resultTitle : String) (url : String)
    (breadcrumbs : List (List Crumb)) : String :=
  let _ := resultTitle
  match (breadcrumbs.flatten.filterMap crumbCityMulti).head? with
  | some s => s
  | none => urlCityFallback url

/-- The per-anchor country rule of `crawler_with_coords.py`
`_infer_country_and_city` (lines 53-60): the stripped path of the href must
have exactly two segments, the first being `countries`. -/
def crumbCountryCoords (c : Crumb) : Option String :=
  let titleAttr := pyStrip c.title
  let parts := pathSegs c.url
  if parts.length == 2 && parts.getD 0 "" == "countries" then
    some (if titleAttr ≠ "" then titleAttr
          else pyTitle (replaceHyphen (parts.getD 1 "")))
  else none

/-- The per-anchor city rule of `crawler_with_coords.py` (lines 68-76):
exactly three path segments under `countries`. -/
def crumbCityCoords (c : Crumb) : Option String :=
  let titleAttr := pyStrip c.title
  let parts := pathSegs c.url
  if parts.length == 3 && parts.getD 0 "" == "countries" then
    some (if titleAttr ≠ "" then titleAttr
          else pyTitle (replaceHyphen (parts.getD 2 "")))
  else none

/-- `crawler_with_coords.py` `_infer_country_and_city` (lines 37-87):
first matching anchor wins for country and for city; URL-path fallbacks;
finally `city := country` when no city-level signal exists. -/
def inferCountryCityCoords (url : String)
    (breadcrumbs : List (List Crumb)) : String × String :=
  let country :=
    match (breadcrumbs.flatten.filterMap crumbCountryCoords).head? with
    | some s => s
    | none =>
        let parts := pathSegs url
        if parts.length ≥ 2 && parts.getD 0 "" == "countries" then
          pyTitle (replaceHyphen (parts.getD 1 ""))
        else ""
  let city :=
    match (breadcrumbs.flatten.filterMap crumbCityCoords).head? with
    | some s => s
    | none =>
        let parts := pathSegs url
        if parts.length ≥ 3 && parts.getD 0 "" == "countries" then
          pyTitle (replaceHyphen (parts.getD 2 ""))
        else ""
  (country, if city = "" then country else city)

/-! ## Render necessity classifier -/

/-- The facts about a parsed document that
`WebcamCrawler.should_use_selenium` (`crawler.py`, lines 652-677) inspects.
`titleText` is `none` when the document has no `<title>` element and
`some s` when it has one with stripped text `s`. -/
structure DocModel where
  scriptCount : Nat
  hasNextScript : Bool
  hasRootDiv : Bool
  hasAppDiv : Bool
  hasTemplate : Bool
  hasNoscript : Bool
  textLength : Nat
  titleText : Option String
  hasH1 : Bool
  hasMetaDescription : Bool
deriving DecidableEq, Repr

/-- The nine indicators of `should_use_selenium`, in source order. -/
def indicators (d : DocModel) : List Bool :=
  [ decide (d.scriptCount > 5),
    d.hasNextScript,
    d.hasRootDiv || d.hasAppDiv,
    d.hasTemplate,
    d.hasNoscript,
    decide (d.textLength < 1000),
    (match d.titleText with
     | none => true
     | some s => s == ""),
    !d.hasH1,
    !d.hasMetaDescription ]

/-- `sum(indicators) >= 3` (`crawler.py` line 677). -/
def should_use_selenium (d : DocModel) : Bool :=
  decide ((indicators d).countP (· == true) ≥ 3)

/-! ## Web Mercator tile geometry

Python floats are modelled as real numbers; `math.degrees`, `math.radians`
and `int(...)` (truncation toward zero) are modelled explicitly. -/

open Real

/-- `math.degrees(x) = x * 180 / pi`. -/
noncomputable def degrees (x : ℝ) : ℝ := x * 180 / π

/-- `math.radians(x) = x * pi / 180`. -/
noncomputable def radians (x : ℝ) : ℝ := x * π / 180

/-- Python `int(x)` on a float: truncation toward zero. -/
noncomputable def pyInt (x : ℝ) : ℤ := if 0 ≤ x then ⌊x⌋ else ⌈x⌉

/-- `save_results.py` `tile_to_lat_lon` (lines 954-963): returns
`(lat_deg, lon_deg)` with `n = 2.0 ** zoom`,
`lon_deg = tile_x / n * 360.0 - 180.0` and
`lat_deg = degrees(atan(sinh(pi * (1 - 2 * tile_y / n))))`.
The tile indices may be fractional (the marker-refined caller passes
fractional tiles); every call site parses `zoom` as a non-negative
integer. -/
noncomputable def tile_to_lat_lon (tile_x tile_y : ℝ) (zoom : ℕ) : ℝ × ℝ :=
  let n : ℝ := 2 ^ zoom
  let lon_deg := tile_x / n * 360 - 180
  let lat_rad := arctan (Real.sinh (π * (1 - 2 * tile_y / n)))
  let lat_deg := degrees lat_rad
  (lat_deg, lon_deg)

/-- `save_results.py` `lat_lon_to_tile` (lines 983-992): returns
`(tile_x, tile_y)` with `lat_rad = radians(lat)`, `n = 2.0 ** zoom`,
`tile_x = int((lon + 180.0) / 360.0 * n)` and
`tile_y = int((1.0 - asinh(tan(lat_rad)) / pi) / 2.0 * n)`. -/
noncomputable def lat_lon_to_tile (lat lon : ℝ) (zoom : ℕ) : ℤ × ℤ :=
  let lat_rad := radians lat
  let n : ℝ := 2 ^ zoom
  (pyInt ((lon + 180) / 360 * n),
   pyInt ((1 - Real.arsinh (Real.tan lat_rad) / π) / 2 * n))

/-- `save_results.py` `global_pixel_to_lat_lon` (lines 994-1007): converts a
global world pixel to lat/lon, with `world_size` defaulting to
`256 * 2 ** zoom`, `x = px / world_size - 0.5`, `y = 0.5 - py / world_size`,
`lon = 360.0 * x` and
`lat = 90.0 - 360.0 * atan(exp(-y * 2.0 * pi)) / pi`. -/
noncomputable def global_pixel_to_lat_lon (px py : ℝ) (zoom : ℕ)
    (world_size : Option ℝ) : ℝ × ℝ :=
  let ws := world_size.getD (256 * 2 ^ zoom)
  let x := px / ws - 0.5
  let y := 0.5 - py / ws
  let lon := 360 * x
  let lat := 90 - 360 * arctan (Real.exp (-y * 2 * π)) / π
  (lat, lon)

/-- Modelled from the spec's words (section 4.3 / Scenario C):
`longitude = tileX / 2^zoom * 360 − 180` and
`latitude = degrees(atan(sinh(π · (1 − 2·tileY / 2^zoom))))`,
returned in the source's `(latitude, longitude)` order. -/
noncomputable def specTileFormula (tileX tileY : ℝ) (zoom : ℕ) : ℝ × ℝ :=
  (degrees (arctan (Real.sinh (π * (1 - 2 * tileY / 2 ^ zoom)))),
   tileX / 2 ^ zoom * 360 - 180)

/-! ## The tile/marker stage of `extract_openstreetmap_coordinates` -/

/-- A tile reference parsed from a tile image URL by the regex
`https://[a-z].tile.openstreetmap.org/(\d+)/(\d+)/(\d+).png`. -/
structure TileInfo where
  z : ℕ
  tx : ℕ
  ty : ℕ
deriving DecidableEq

/-- How the tile/marker stage produced a coordinate. -/
inductive OsmSource
  | tileCalc      -- `leaflet_tile_calculation`
  | markerRefTile -- `leaflet_marker_ref_tile`
deriving DecidableEq

/-- A coordinate produced by the tile/marker stage. -/
structure OsmCoord where
  lat : ℝ
  lon : ℝ
  src : OsmSource

/-- The plausibility bounding box of `save_results.py` line 732:
`8.0 <= lat <= 23.0 and 102.0 <= lon <= 110.0`. -/
def inBox (lat lon : ℝ) : Prop :=
  8 ≤ lat ∧ lat ≤ 23 ∧ 102 ≤ lon ∧ lon ≤ 110

noncomputable instance (lat lon : ℝ) : Decidable (inBox lat lon) := by
  unfold inBox; infer_instance

/-- The tile-geometry stage of `extract_openstreetmap_coordinates`
(`save_results.py`, lines 707-789), as a function of the parsed artifacts:

* `firstTile`: the regex parse of the first leaflet tile's `src`
  (lines 713-724); when it parses, the tile corner is converted with
  `tile_to_lat_lon` and kept only if it lies inside the bounding box
  (lines 728-743);
* `marker`: the `translate3d` offset of the marker icon (lines 746-757);
* `refTile`: the first tile with an `https://` src, with its own regex
  parse and `translate3d` offset (lines 759-774); when both marker and
  reference data are present, the marker's pixel delta to the reference
  tile corner is converted to a fractional tile index and re-converted
  with `tile_to_lat_lon`, and the result is stored unconditionally
  (lines 776-789), overwriting any first-stage coordinate. -/
noncomputable def osmTileStage (firstTile : Option TileInfo)
    (marker : Option (ℝ × ℝ)) (refTile : Option (TileInfo × ℝ × ℝ)) :
    Option OsmCoord :=
  let c0 : Option OsmCoord :=
    match firstTile with
    | none => none
    | some t =>
        let p := tile_to_lat_lon t.tx t.ty t.z
        if inBox p.1 p.2 then some ⟨p.1, p.2, .tileCalc⟩ else none
  match marker, refTile with
  | some (mx, my), some (rt, tpx, tpy) =>
      let adjx : ℝ := rt.tx + (mx - tpx) / 256
      let adjy : ℝ := rt.ty + (my - tpy) / 256
      let p := tile_to_lat_lon adjx adjy rt.z
      some ⟨p.1, p.2, .markerRefTile⟩
  | _, _ => c0

/-- The coordinate (if any) of the stage's result is inside the box. -/
def boxedOrNone : Option OsmCoord → Prop
  | none => True
  | some c => inBox c.lat c.lon

/-! ## Record-store lemmas -/

lemma mem_pruneMulti_hasUrl {l : List JEntry} {it : Item}
    (h : it ∈ pruneMulti l) : it.hasUrl = true := by
  unfold pruneMulti at h
  rcases List.mem_filterMap.mp h with ⟨e, _, he⟩
  cases e with
  | nonobj => simp at he
  | obj it2 =>
      dsimp only at he
      split at he
      · next hu => cases he; exact hu
      · simp at he

lemma pruneMulti_map_obj (xs : List Item)
    (h : ∀ it ∈ xs, it.hasUrl = true) :
    pruneMulti (xs.map JEntry.obj) = xs := by
  induction xs with
  | nil => rfl
  | cons a t ih =>
      have ha := h a (by simp)
      have ht : ∀ it ∈ t, it.hasUrl = true := fun it hit => h it (by simp [hit])
      simp only [List.map_cons, pruneMulti, List.filterMap_cons]
      simp only [ha, if_true]
      simpa [pruneMulti] using ih ht

/-- Merging any record into a `save_results_multi.py`-style list store leaves
only entries that are JSON objects with a URL. -/
lemma mergeStoreMulti_list_pruned (l : List JEntry) (d : Item) (e : JEntry)
    (he : e ∈ listOf (mergeStoreMulti (.jlist l) d)) :
    ∃ it, e = JEntry.obj it ∧ it.hasUrl = true := by
  simp only [mergeStoreMulti, listOf] at he
  split at he
  · next hc =>
      rcases List.mem_map.mp he with ⟨it, hit, rfl⟩
      rcases List.mem_append.mp hit with h | h
      · exact ⟨it, rfl, mem_pruneMulti_hasUrl h⟩
      · have hd : d.hasUrl = true := by
          have h2 := hc
          simp only [Bool.and_eq_true] at h2
          exact h2.2
        simp only [List.mem_singleton] at h
        exact ⟨it, rfl, h ▸ hd⟩
  · rcases List.mem_map.mp he with ⟨it, hit, rfl⟩
    exact ⟨it, rfl, mem_pruneMulti_hasUrl hit⟩

/-- C2 counterexample: the claim "when the existing collection already
contains an entry whose `(embedUrl, title)` equals the new record's, the new
record is not appended and the original entry is kept" fails in the
`save_results_multi.py` merge when the matching existing entry lacks both
URLs: the pruning pass (line 252) removes it before the dedup keys are
computed, so the new record IS appended and the original is dropped. -/
theorem C2_merge_counterexample :
    (Item.mk (some "") (some "") (some "T")).dedupKey =
      (Item.mk (some "") (some "X") (some "T")).dedupKey ∧
    mergeStoreMulti (.jlist [.obj ⟨some "", some "", some "T"⟩])
        ⟨some "", some "X", some "T"⟩ =
      .many [.obj ⟨some "", some "X", some "T"⟩] ∧
    Item.mk (some "") (some "") (some "T") ≠ Item.mk (some "") (some "X") (some "T") := by
  decide

/-- C2 (amended): in the `save_results_multi.py` list merge, for a new
record with a URL: (a) if a SURVIVING (URL-bearing) existing entry matches
the record's `(embedUrl, title)` key, the record is not appended and the
survivors are kept in order; (b) if no surviving entry matches, the record
is appended and the merged collection has exactly one entry with that key;
(c) merging the same record a second time leaves the store unchanged, so
repeated merges of one record yield a single entry for its key. -/
theorem C2_merge_dedup (l : List JEntry) (d : Item) (hd : d.hasUrl = true) :
    ((pruneMulti l).any (fun it => it.dedupKey == d.dedupKey) = true →
        mergeStoreMulti (.jlist l) d = .many ((pruneMulti l).map .obj)) ∧
    ((pruneMulti l).any (fun it => it.dedupKey == d.dedupKey) = false →
        mergeStoreMulti (.jlist l) d = .many ((pruneMulti l ++ [d]).map .obj) ∧
        countKey (pruneMulti l ++ [d]) d.dedupKey = 1) ∧
    mergeStoreMulti (reload (mergeStoreMulti (.jlist l) d)) d =
      mergeStoreMulti (.jlist l) d := by
  have hunf : ∀ (L : List JEntry),
      mergeStoreMulti (.jlist L) d =
        .many ((if !((pruneMulti L).any fun it => it.dedupKey == d.dedupKey)
                    && d.hasUrl
                then pruneMulti L ++ [d] else pruneMulti L).map .obj) :=
    fun _ => rfl
  have hkeep : ∀ it ∈ pruneMulti l, it.hasUrl = true :=
    fun _ h => mem_pruneMulti_hasUrl h
  refine ⟨?_, ?_, ?_⟩
  · intro hA
    rw [hunf, hA]
    simp
  · intro hA
    have h0 : countKey (pruneMulti l) d.dedupKey = 0 := by
      rw [countKey, List.countP_eq_zero]
      intro it hit hbeq
      have h4 : (pruneMulti l).any (fun it => it.dedupKey == d.dedupKey) = true :=
        List.any_eq_true.mpr ⟨it, hit, hbeq⟩
      rw [hA] at h4
      exact Bool.false_ne_true h4
    refine ⟨?_, ?_⟩
    · rw [hunf, hA, hd]
      simp
    · unfold countKey at h0 ⊢
      rw [List.countP_append, h0]
      simp [List.countP_cons]
  · cases hA : (pruneMulti l).any (fun it => it.dedupKey == d.dedupKey) with
    | true =>
        have h1 : mergeStoreMulti (.jlist l) d =
            .many ((pruneMulti l).map .obj) := by
          rw [hunf, hA]; simp
        have h2 : pruneMulti ((pruneMulti l).map .obj) = pruneMulti l :=
          pruneMulti_map_obj _ hkeep
        rw [h1]
        show mergeStoreMulti (.jlist ((pruneMulti l).map .obj)) d = _
        rw [hunf, h2, hA]
        simp
    | false =>
        have h1 : mergeStoreMulti (.jlist l) d =
            .many ((pruneMulti l ++ [d]).map .obj) := by
          rw [hunf, hA, hd]; simp
        have hall : ∀ it ∈ pruneMulti l ++ [d], it.hasUrl = true := by
          intro it hit
          rcases List.mem_append.mp hit with h | h
          · exact hkeep it h
          · simp only [List.mem_singleton] at h
            exact h ▸ hd
        have h2 : pruneMulti ((pruneMulti l ++ [d]).map .obj) =
            pruneMulti l ++ [d] := pruneMulti_map_obj _ hall
        have h3 : (pruneMulti l ++ [d]).any
            (fun it => it.dedupKey == d.dedupKey) = true :=
          List.any_eq_true.mpr ⟨d, by simp, by simp⟩
        rw [h1]
        show mergeStoreMulti (.jlist ((pruneMulti l ++ [d]).map .obj)) d = _
        rw [hunf, h2, h3]
        simp

/-- Witness for `C2_merge_dedup`, at the spec's Scenario D: existing store
`[{"embedUrl":"A","title":"T1"}]`, new record
`{"embedUrl":"A","title":"T1","contentUrl":"X"}`: the merged collection is
the original one-element list. -/
theorem C2_merge_dedup_witness :
    Item.hasUrl ⟨some "A", some "X", some "T1"⟩ = true ∧
    mergeStoreMulti (.jlist [.obj ⟨some "A", none, some "T1"⟩])
        ⟨some "A", some "X", some "T1"⟩ =
      .many [.obj ⟨some "A", none, some "T1"⟩] := by
  refine ⟨by decide, ?_⟩
  have h := (C2_merge_dedup [.obj ⟨some "A", none, some "T1"⟩]
      ⟨some "A", some "X", some "T1"⟩ (by decide)).1 (by decide)
  exact h.trans (by decide)

/-- C4 counterexample: the claim "existing entries lacking both URLs are
dropped on every merge, regardless of entry point" fails for
`crawler_with_coords.py` `main` (lines 329-333): its list merge computes
dedup keys over all existing dict entries and appends, but never prunes, so
a URL-less existing entry survives the merge. -/
theorem C4_prune_counterexample :
    mergeStoreCoords (.jlist [.obj ⟨some "", some "", some "Old"⟩])
        ⟨some "E", some "C", some "New"⟩ =
      .many [.obj ⟨some "", some "", some "Old"⟩,
             .obj ⟨some "E", some "C", some "New"⟩] ∧
    Item.hasUrl ⟨some "", some "", some "Old"⟩ = false := by
  decide

/-- C4 (amended): in the list merges of `save_results_multi.py` (line 252)
and `save_results.py` (line 358), every entry of the merged collection is a
JSON object with `embedUrl` or `contentUrl` non-empty — existing entries
lacking both URLs are dropped on every such merge; the list merge of
`crawler_with_coords.py` does not prune (see the counterexample). -/
theorem C4_prune_on_merge (l : List JEntry) (d : Item) (e : JEntry)
    (he : e ∈ listOf (mergeStoreMulti (.jlist l) d)) :
    ∃ it, e = JEntry.obj it ∧ it.hasUrl = true :=
  mergeStoreMulti_list_pruned l d e he

/-- Witness for `C4_prune_on_merge` at a concrete merge. -/
theorem C4_prune_on_merge_witness :
    (JEntry.obj ⟨some "E", none, some "T"⟩) ∈
        listOf (mergeStoreMulti (.jlist [.nonobj, .obj ⟨none, none, some "Bad"⟩])
          ⟨some "E", none, some "T"⟩) ∧
    ∃ it, JEntry.obj ⟨some "E", none, some "T"⟩ = JEntry.obj it ∧
      it.hasUrl = true :=
  ⟨by decide,
   C4_prune_on_merge [.nonobj, .obj ⟨none, none, some "Bad"⟩]
     ⟨some "E", none, some "T"⟩ _ (by decide)⟩

/-- C5 counterexample: the claim "a record with neither URL is never written
to any store file, in every entry point that persists records" fails for the
minimal flow of `run_crawler.py` (lines 157-161): the record is written to
`{safe_country}.json` unconditionally, with no URL guard. -/
theorem C5_guard_counterexample :
    Item.hasUrl ⟨some "", some "", some "T"⟩ = false ∧
    stepRunCrawler (some "Vietnam") ⟨some "", some "", some "T"⟩ =
      ("Vietnam.json", .single ⟨some "", some "", some "T"⟩) := by
  decide

/-- C5 (amended): in `save_results_multi.py` `main` (line 236) and
`save_results.py` `crawl_and_save_results` (lines 337-340) a record is
persisted only if `embedUrl` or `contentUrl` is non-empty; the minimal flow
of `run_crawler.py` writes the record without this guard (see the
counterexample). -/
theorem C5_persist_guard :
    (∀ (fs : FileState) (d : Item) (o : StoredOut),
        stepMulti fs d = some o → d.hasUrl = true) ∧
    (∀ (fs : FileState) (d : Item) (o : StoredOut),
        stepSaveResults fs d = some o → d.hasUrl = true) := by
  constructor <;>
    · intro fs d o h
      simp only [stepMulti, stepSaveResults] at h
      split at h
      · assumption
      · exact absurd h (by simp)

/-- Witness for `C5_persist_guard` at a concrete persisted record. -/
theorem C5_persist_guard_witness :
    stepMulti .absent ⟨some "E", none, some "T"⟩ =
      some (.single ⟨some "E", none, some "T"⟩) ∧
    Item.hasUrl ⟨some "E", none, some "T"⟩ = true :=
  ⟨by decide, C5_persist_guard.1 .absent ⟨some "E", none, some "T"⟩
    (.single ⟨some "E", none, some "T"⟩) (by decide)⟩

/-! ## Location resolution theorems -/

/-- C7 counterexample: in `save_results_multi.py` the claimed per-anchor
rule fails on the claim's own trail.  The country anchor
`/countries/vietnam/` has exactly two path segments under `countries`, but
`infer_country` requires `href.count('/') == 2` and the trailing slash
gives a count of 3, so the anchor is skipped and the country resolves to
`""`; the same anchor satisfies `infer_city`'s `count('/') >= 3` rule, so
its title `"Vietnam"` is returned as the CITY instead of `"Da Nang"`. -/
theorem C7_breadcrumb_counterexample :
    infer_country "https://example.com/webcam/hanoi"
        [[⟨"Vietnam", "/countries/vietnam/", "Vietnam"⟩,
          ⟨"Da Nang", "/countries/vietnam/da-nang/", "Da Nang"⟩]] = "" ∧
    infer_city "t" "https://example.com/webcam/hanoi"
        [[⟨"Vietnam", "/countries/vietnam/", "Vietnam"⟩,
          ⟨"Da Nang", "/countries/vietnam/da-nang/", "Da Nang"⟩]] = "Vietnam" ∧
    ("" : String) ≠ "Vietnam" ∧ ("Vietnam" : String) ≠ "Da Nang" := by
  refine ⟨by decide, by decide, by decide, by decide⟩

/-- C7 (amended): the claimed rule holds in `crawler_with_coords.py`
`_infer_country_and_city`, where segment counts come from the stripped URL
path: Scenario B's trail resolves to country `"Vietnam"` and city
`"Da Nang"`; with absent title attributes the hyphenated slug is
title-cased; and when a country is found but no city-level signal, the city
equals the country.  In `save_results_multi.py` the country rule instead
requires `/countries/<slug>` without a trailing slash and the city rule
matches any `/countries/` href with slash count at least 3 (see the
counterexample). -/
theorem C7_breadcrumb_resolution :
    inferCountryCityCoords "https://example.com/webcam/hanoi"
        [[⟨"Vietnam", "/countries/vietnam/", "Vietnam"⟩,
          ⟨"Da Nang", "/countries/vietnam/da-nang/", "Da Nang"⟩]] =
      ("Vietnam", "Da Nang") ∧
    inferCountryCityCoords "https://example.com/webcam/hanoi"
        [[⟨"", "/countries/viet-nam/", ""⟩,
          ⟨"", "/countries/viet-nam/da-nang/", ""⟩]] =
      ("Viet Nam", "Da Nang") ∧
    inferCountryCityCoords "https://example.com/webcam/hanoi"
        [[⟨"Vietnam", "/countries/vietnam/", "Vietnam"⟩]] =
      ("Vietnam", "Vietnam") := by
  refine ⟨by decide, by decide, by decide⟩

/-! ## Store-key sanitization theorems -/

/-- C8 counterexample: the claim says every non-alphanumeric character of
the country is replaced by `'_'`, but the code only replaces spaces: the
key for country `"Viet-Nam"` keeps the non-alphanumeric `'-'`. -/
theorem C8_key_counterexample :
    safe_country (some "Viet-Nam") = "Viet-Nam" ∧
    '-' ∈ (safe_country (some "Viet-Nam")).data ∧
    '-'.isAlphanum = false := by
  refine ⟨by decide, by decide, by decide⟩

/-- Modelled from the amended claim's words: the store key is `"Unknown"`
when the country string is empty (or absent); otherwise it is the country
stripped of surrounding whitespace with each SPACE character (only)
replaced by `'_'`. -/
def amendedKeySpec (c : Option String) : String :=
  match c with
  | none => "Unknown"
  | some s => if s = "" then "Unknown" else replaceSpace (pyStrip s)

/-- C8 (amended): for every country value, the store key equals the amended
specification: `"Unknown"` for an empty or absent country, otherwise the
stripped country with spaces (not all non-alphanumerics) replaced by
`'_'`. -/
theorem C8_key_sanitization (c : Option String) :
    safe_country c = amendedKeySpec c := by
  cases c with
  | none => decide
  | some s =>
      unfold safe_country amendedKeySpec pyOrStr
      by_cases h : s = ""
      · subst h; decide
      · simp [h]

/-! ## Render necessity classifier theorems -/

/-- C9: the classifier counts its nine indicators and returns true exactly
when at least 3 are true; a document with an empty `<title>`, no `h1`, no
meta description, 2 script tags and 1500 characters of visible text always
has at least 3 true indicators (whatever the framework/template/noscript
indicators are) and is classified as needing rendering; with those
remaining indicators false, the count is exactly 3. -/
theorem C9_render_classifier :
    (∀ d : DocModel,
        should_use_selenium d = true ↔ 3 ≤ (indicators d).countP (· == true)) ∧
    (∀ nxt rt ap tp ns : Bool,
        should_use_selenium
          ⟨2, nxt, rt, ap, tp, ns, 1500, some "", false, false⟩ = true) ∧
    (indicators ⟨2, false, false, false, false, false, 1500, some "", false, false⟩).countP
        (· == true) = 3 := by
  refine ⟨fun d => ?_, fun nxt rt ap tp ns => ?_, by decide⟩
  · simp [should_use_selenium]
  · cases nxt <;> cases rt <;> cases ap <;> cases tp <;> cases ns <;> decide

/-! ## Tile geometry theorems -/

/-- C1: the code's tile-to-coordinate conversion satisfies the spec's
Web Mercator formulas `longitude = tileX / 2^zoom * 360 − 180` and
`latitude = degrees(atan(sinh(π · (1 − 2·tileY / 2^zoom))))` for every
integer tile reference, in particular at Scenario C's
`zoom=14, tileX=12345, tileY=6789`, where it is the deterministic value of
the independently stated formula. -/
theorem C1_tile_formula :
    (∀ tx ty zoom : ℕ, tile_to_lat_lon tx ty zoom = specTileFormula tx ty zoom) ∧
    tile_to_lat_lon 12345 6789 14 = specTileFormula 12345 6789 14 :=
  ⟨fun _ _ _ => rfl, rfl⟩

lemma pyInt_natCast (k : ℕ) : pyInt (k : ℝ) = k := by
  unfold pyInt
  rw [if_pos (by positivity)]
  exact_mod_cast Int.floor_natCast k

/-- The tile round trip is exact at integer tile indices (in the real-number
model of the source's float arithmetic). -/
lemma roundtrip_exact (tx ty zoom : ℕ) :
    lat_lon_to_tile (tile_to_lat_lon tx ty zoom).1
      (tile_to_lat_lon tx ty zoom).2 zoom = ((tx : ℤ), (ty : ℤ)) := by
  have hn : ((2 : ℝ) ^ zoom) ≠ 0 := by positivity
  have hπ := Real.pi_ne_zero
  unfold tile_to_lat_lon lat_lon_to_tile degrees radians
  simp only
  have e1 : ((tx : ℝ) / 2 ^ zoom * 360 - 180 + 180) / 360 * 2 ^ zoom = (tx : ℝ) := by
    field_simp
    ring
  have e2 : Real.arctan (Real.sinh (Real.pi * (1 - 2 * (ty : ℝ) / 2 ^ zoom)))
        * 180 / Real.pi * Real.pi / 180
      = Real.arctan (Real.sinh (Real.pi * (1 - 2 * (ty : ℝ) / 2 ^ zoom))) := by
    field_simp
  rw [e1, e2, Real.tan_arctan, Real.arsinh_sinh]
  have e3 : (1 - Real.pi * (1 - 2 * (ty : ℝ) / 2 ^ zoom) / Real.pi) / 2 * 2 ^ zoom
      = (ty : ℝ) := by
    field_simp
    ring
  rw [e3, pyInt_natCast, pyInt_natCast]

/-- C6: converting an in-range integer tile triple to lat/lon with
`tile_to_lat_lon` and back with `lat_lon_to_tile` recovers tile indices
within one tile unit on each axis (in fact exactly). -/
theorem C6_tile_roundtrip (tx ty zoom : ℕ)
    (hx : tx < 2 ^ zoom) (hy : ty < 2 ^ zoom) :
    |(lat_lon_to_tile (tile_to_lat_lon tx ty zoom).1
        (tile_to_lat_lon tx ty zoom).2 zoom).1 - (tx : ℤ)| ≤ 1 ∧
    |(lat_lon_to_tile (tile_to_lat_lon tx ty zoom).1
        (tile_to_lat_lon tx ty zoom).2 zoom).2 - (ty : ℤ)| ≤ 1 := by
  rw [roundtrip_exact]
  simp

/-- Witness for `C6_tile_roundtrip` at Scenario C's tile. -/
theorem C6_tile_roundtrip_witness :
    12345 < 2 ^ 14 ∧ 6789 < 2 ^ 14 ∧
    (|(lat_lon_to_tile (tile_to_lat_lon 12345 6789 14).1
        (tile_to_lat_lon 12345 6789 14).2 14).1 - (12345 : ℤ)| ≤ 1 ∧
     |(lat_lon_to_tile (tile_to_lat_lon 12345 6789 14).1
        (tile_to_lat_lon 12345 6789 14).2 14).2 - (6789 : ℤ)| ≤ 1) :=
  ⟨by norm_num, by norm_num,
   C6_tile_roundtrip 12345 6789 14 (by norm_num) (by norm_num)⟩

/-- Gudermannian identity linking the two Web Mercator latitude formulas:
`atan (sinh u) = π/2 − 2·atan (exp (−u))`. -/
lemma arctan_sinh_eq (u : ℝ) :
    Real.arctan (Real.sinh u) = π / 2 - 2 * Real.arctan (Real.exp (-u)) := by
  have he : (0 : ℝ) < Real.exp (-u) := Real.exp_pos _
  have h1 : 0 < Real.arctan (Real.exp (-u)) := by
    have h := Real.arctan_strictMono he
    simpa using h
  have h2 : Real.arctan (Real.exp (-u)) < π / 2 :=
    Real.arctan_lt_pi_div_two _
  have htan : Real.tan (π / 2 - 2 * Real.arctan (Real.exp (-u)))
      = Real.sinh u := by
    rcases eq_or_ne u 0 with rfl | hu
    · simp only [neg_zero, Real.exp_zero, Real.arctan_one, Real.sinh_zero]
      rw [show π / 2 - 2 * (π / 4) = 0 by ring, Real.tan_zero]
    · rw [Real.tan_pi_div_two_sub, Real.tan_two_mul, Real.tan_arctan,
        Real.sinh_eq]
      have ht0 : Real.exp (-u) ≠ 0 := he.ne'
      have ht1 : Real.exp (-u) ≠ 1 := by
        intro h
        exact hu (by simpa using (Real.exp_eq_one_iff _).mp h)
      have hprod : Real.exp (-u) * Real.exp u = 1 := by
        rw [← Real.exp_add]
        simp
      have hq : 1 - Real.exp (-u) ^ 2 ≠ 0 := by
        intro h
        apply ht1
        nlinarith
      rw [inv_div]
      field_simp
      nlinarith [hprod]
  rw [← htan, Real.arctan_tan (by linarith) (by linarith)]

/-- C10: for every zoom level and real tile-index pair, the global-pixel
Web Mercator conversion at pixel `(256·tx, 256·ty)` with the default world
size agrees with the tile-index formula `tile_to_lat_lon tx ty zoom`: the
two independent implementations are equivalent (via the Gudermannian
identity `atan (sinh x) = π/2 − 2·atan (exp (−x))`). -/
theorem C10_pixel_tile_equivalence (tx ty : ℝ) (zoom : ℕ) :
    global_pixel_to_lat_lon (256 * tx) (256 * ty) zoom none =
      tile_to_lat_lon tx ty zoom := by
  have hn : ((2 : ℝ) ^ zoom) ≠ 0 := by positivity
  have hπ := Real.pi_ne_zero
  unfold global_pixel_to_lat_lon tile_to_lat_lon degrees
  simp only [Option.getD_none]
  have harg : -(0.5 - 256 * ty / (256 * 2 ^ zoom)) * 2 * π
      = -(π * (1 - 2 * ty / 2 ^ zoom)) := by
    field_simp
    ring
  refine Prod.ext ?_ ?_
  · show 90 - 360 * Real.arctan (Real.exp (-(0.5 - 256 * ty / (256 * 2 ^ zoom)) * 2 * π)) / π
        = Real.arctan (Real.sinh (π * (1 - 2 * ty / 2 ^ zoom))) * 180 / π
    rw [harg, arctan_sinh_eq (π * (1 - 2 * ty / 2 ^ zoom))]
    field_simp
    ring
  · show 360 * (256 * tx / (256 * 2 ^ zoom) - 0.5) = tx / 2 ^ zoom * 360 - 180
    field_simp
    ring

/-! ## Bounding-box theorems -/

lemma osmTileStage_marker (ft : Option TileInfo) (mx my : ℝ)
    (rt : TileInfo) (tpx tpy : ℝ) :
    osmTileStage ft (some (mx, my)) (some (rt, tpx, tpy)) =
      some ⟨(tile_to_lat_lon (rt.tx + (mx - tpx) / 256)
               (rt.ty + (my - tpy) / 256) rt.z).1,
            (tile_to_lat_lon (rt.tx + (mx - tpx) / 256)
               (rt.ty + (my - tpy) / 256) rt.z).2,
            .markerRefTile⟩ := rfl

/-- C3 counterexample: the marker-refined tile path of
`extract_openstreetmap_coordinates` (`save_results.py`, lines 776-789)
returns a tile-geometry coordinate without the bounding-box check: with a
reference tile `(zoom 0, x 0, y 0)` and a marker at that tile's corner, the
stage returns the tile's coordinate, whose longitude `-180` lies outside
`102 ≤ lon ≤ 110`. -/
theorem C3_box_counterexample :
    osmTileStage none (some (0, 0)) (some (⟨0, 0, 0⟩, 0, 0)) =
      some ⟨(tile_to_lat_lon 0 0 0).1, (tile_to_lat_lon 0 0 0).2,
            .markerRefTile⟩ ∧
    ¬ inBox (tile_to_lat_lon 0 0 0).1 (tile_to_lat_lon 0 0 0).2 := by
  constructor
  · rw [osmTileStage_marker]
    norm_num
  · intro hbox
    have h102 := hbox.2.2.1
    have hlon : (tile_to_lat_lon 0 0 0).2 = -180 := by
      unfold tile_to_lat_lon
      norm_num
    rw [hlon] at h102
    linarith

/-- C3 (amended): the direct tile-corner path of the resolver (the stage
with no marker data) only ever returns a coordinate inside the plausibility
box; the marker-refined tile path does not apply the box (see the
counterexample). -/
theorem C3_box_on_tile_path (t : Option TileInfo) :
    boxedOrNone (osmTileStage t none none) := by
  cases t with
  | none => trivial
  | some t =>
      unfold osmTileStage
      simp only
      split
      · next h => exact h
      · trivial

end CrawlData
